import Mathlib

/-!
Verification of the session store and the view-state reconciliation logic of
the event-management front end.

The embedding covers:
* `src/store/authStore.ts` — the zustand auth store (`setAuth`, `logout`,
  `hydrateFromStorage`) together with the two localStorage keys it manages;
* the pure derivation functions used by the pages:
  `filteredEvents` (events page), `isRegistered` (event detail page),
  `joinedEvents` (profile page), and the four collection-splice handlers
  (`handleEventCreated`, `handlePostCreated`, `handleCommentCreated`,
  `handleRegistered`);
* the synchronous validation guards of the mutating submit handlers
  (`EventForm.handleSubmit`, `NewCommentForm.handleSubmit`,
  `RegisterButton.handleClick`).

JavaScript `string | null` values are modelled as `Option String`, with JS
truthiness (`null` and `""` are falsy) made explicit.  The value persisted
under the `"user"` localStorage key is modelled by `StoredUser`: either the
result of `JSON.stringify` on a user record (always a nonempty string), or
some other string that `JSON.parse` rejects (which includes the empty
string, since `""` is not valid JSON).
-/

/-- User record (`src/lib/types.ts`, `interface User`). -/
structure User where
  userId : String
  name : String
  email : String
  city : String
  password : Option String
deriving Repr, DecidableEq

/-- Event record (`src/lib/types.ts`, `interface Event`).  The optional
`participantsCount` field is derived client-side and not set by the code
under verification. -/
structure Event where
  eventId : String
  name : String
  description : String
  date : String
  city : String
  createdBy : String
  participantsCount : Option Nat
deriving Repr, DecidableEq

/-- Registration record (`src/lib/types.ts`, `interface Registration`). -/
structure Registration where
  regId : String
  eventId : String
  userId : String
  registeredAt : String
deriving Repr, DecidableEq

/-- JS truthiness of a `string | null` value: `null` and `""` are falsy,
every other string is truthy. -/
def jsTruthy : Option String → Bool
  | none => false
  | some s => s != ""

/-- The string persisted under the `"user"` localStorage key.
`encoded u` is the result of `JSON.stringify u` (always a nonempty string
starting with a brace); `malformed s` is any other persisted string, one
that `JSON.parse` throws on — this includes the empty string `""`, which is
not valid JSON. -/
inductive StoredUser
  | encoded (u : User)
  | malformed (s : String)
deriving Repr, DecidableEq

/-- JS truthiness of the stored user string: `JSON.stringify` output is
nonempty, hence truthy; a malformed string is truthy iff nonempty. -/
def StoredUser.isTruthy : StoredUser → Bool
  | .encoded _ => true
  | .malformed s => s != ""

/-- JS truthiness of `localStorage.getItem("user")` (`null` is falsy). -/
def jsTruthyUser : Option StoredUser → Bool
  | none => false
  | some su => su.isTruthy

/-- `JSON.parse` applied to the stored user string, typed as `User`:
succeeds exactly on `JSON.stringify` output, throws otherwise
(modelled as `none`). -/
def parseUser : StoredUser → Option User
  | .encoded u => some u
  | .malformed _ => none

/-- The in-memory slice of the zustand store (`authStore.ts`):
`token: string | null` and `user: User | null`. -/
structure Session where
  token : Option String
  user : Option User
deriving Repr, DecidableEq

/-- Initial store state: no token and no user. -/
def Session.empty : Session := ⟨none, none⟩

/-- The two localStorage keys consumed by the store: `"token"` (a raw
string) and `"user"` (a serialized user record).  `none` means the key is
absent. -/
structure Storage where
  token : Option String
  user : Option StoredUser
deriving Repr, DecidableEq

/-- Combined client state: the in-memory session plus localStorage. -/
structure AuthState where
  session : Session
  storage : Storage
deriving Repr, DecidableEq

/-- `setAuth(token, user)` (`authStore.ts`): replaces both in-memory fields
and writes both localStorage keys (`localStorage.setItem("token", token)`;
`localStorage.setItem("user", JSON.stringify(user))`). -/
def setAuth (st : AuthState) (token : String) (user : User) : AuthState :=
  { st with
    session := ⟨some token, some user⟩,
    storage := ⟨some token, some (StoredUser.encoded user)⟩ }

/-- `logout()` (`authStore.ts`): clears both in-memory fields and removes
both localStorage keys. -/
def logout (st : AuthState) : AuthState :=
  { st with
    session := ⟨none, none⟩,
    storage := ⟨none, none⟩ }

/-- `hydrateFromStorage()` (`authStore.ts`): reads both keys; when both are
truthy (`if (token && userStr)`), tries `JSON.parse(userStr)`.  On success
it sets both in-memory fields; on a parse failure it removes both
localStorage keys (and touches nothing else).  When either key is absent or
falsy the state is left unchanged.  (On the server, where `window` is
undefined, the whole call is a no-op; the embedding models the client
path.) -/
def hydrateFromStorage (st : AuthState) : AuthState :=
  match st.storage.token, st.storage.user with
  | some t, some su =>
    if t != "" && su.isTruthy then
      match parseUser su with
      | some u => { st with session := ⟨some t, some u⟩ }
      | none => { st with storage := ⟨none, none⟩ }
    else st
  | _, _ => st

/-- One call to the session store, for reasoning about arbitrary call
sequences. -/
inductive StoreOp
  | doSetAuth (t : String) (u : User)
  | doLogout
  | doHydrate
deriving Repr, DecidableEq

/-- Apply one store operation to the client state. -/
def applyOp (st : AuthState) : StoreOp → AuthState
  | .doSetAuth t u => setAuth st t u
  | .doLogout => logout st
  | .doHydrate => hydrateFromStorage st

/-- Run a sequence of store operations from left to right. -/
def runOps (st : AuthState) (ops : List StoreOp) : AuthState :=
  ops.foldl applyOp st

/-- The session is not partial: token and user are both set or both
unset. -/
def Session.consistent (s : Session) : Prop :=
  s.token.isSome = s.user.isSome

/-! ### View-state reconciler functions -/

/-- The JS string method `s.startsWith(p)`: the receiver begins with the
characters of `p`.  Embedded over the character data of the strings. -/
def strStartsWith (s p : String) : Bool :=
  p.data.isPrefixOf s.data

/-- The JS string method `s.toLowerCase()`, embedded as a character-wise
case mapping over the string data (the app only compares city names, for
which ASCII case mapping is the relevant behaviour). -/
def strToLower (s : String) : String :=
  ⟨s.data.map Char.toLower⟩

/-- `filteredEvents` (`src/app/(general)/events/page.tsx`):
`events.filter` keeping an event when
`(!cityFilter || event.city.toLowerCase() === cityFilter.toLowerCase())`
and `(!dateFilter || event.date.startsWith(dateFilter))`. -/
def filteredEvents (events : List Event) (cityFilter dateFilter : String) :
    List Event :=
  events.filter fun event =>
    (cityFilter == "" || strToLower event.city == strToLower cityFilter) &&
    (dateFilter == "" || strStartsWith event.date dateFilter)

/-- `isRegistered` (`src/app/(general)/events/[id]/page.tsx`):
`!!(currentUserId && registrations.some((reg) => reg.userId === currentUserId))`
where `currentUserId = user?.userId`.  JS truthiness short-circuits when
`currentUserId` is `undefined` or the empty string. -/
def isRegistered (registrations : List Registration)
    (currentUserId : Option String) : Bool :=
  match currentUserId with
  | none => false
  | some uid => uid != "" && registrations.any fun reg => reg.userId == uid

/-- `joinedEvents` (`src/app/(general)/profile/page.tsx`):
`events.filter((event) => registrations.some((reg) => reg.eventId === event.eventId))`. -/
def joinedEvents (events : List Event) (registrations : List Registration) :
    List Event :=
  events.filter fun event =>
    registrations.any fun reg => reg.eventId == event.eventId

/-- Author fields displayed for posts and comments (feed variant, as used
in `PostItem.tsx` and `CommentList`). -/
structure Author where
  name : String
  email : String
deriving Repr, DecidableEq

/-- Post record of the feed variant (fields as used in `PostItem.tsx`). -/
structure Post where
  id : Nat
  title : String
  body : String
  author : Author
deriving Repr, DecidableEq

/-- Comment record of the feed variant (fields as used in `CommentList`
and `NewCommentForm.tsx`). -/
structure Comment where
  id : Nat
  body : String
  author : Author
  postId : Nat
deriving Repr, DecidableEq

/-- `handleEventCreated` (`events/page.tsx`):
`setEvents((prev) => [newEvent, ...prev])` — the spread builds a new array,
leaving `prev` intact. -/
def handleEventCreated (newEvent : Event) (prev : List Event) : List Event :=
  newEvent :: prev

/-- `handlePostCreated` (feed page): `setPosts((prev) => [newPost, ...prev])`. -/
def handlePostCreated (newPost : Post) (prev : List Post) : List Post :=
  newPost :: prev

/-- `handleCommentCreated` (post detail page):
`setComments((prev) => [...prev, newComment])`. -/
def handleCommentCreated (newComment : Comment) (prev : List Comment) :
    List Comment :=
  prev ++ [newComment]

/-- `handleRegistered` (`events/[id]/page.tsx`):
`setRegistrations((prev) => [...prev, newReg])`. -/
def handleRegistered (newReg : Registration) (prev : List Registration) :
    List Registration :=
  prev ++ [newReg]

/-! ### Synchronous validation guards of the mutating submit handlers -/

/-- Outcome of the synchronous guard section at the top of a submit
handler: either the handler returns early with an error message — setting
only the error state, issuing no network call and leaving collections and
session untouched — or it proceeds to issue the API call with the given
payload. -/
inductive SubmitStep (α : Type)
  | rejected (msg : String)
  | callApi (payload : α)
deriving Repr, DecidableEq

/-- The JS string method `s.trim()`: removes leading and trailing
whitespace, embedded over the character data of the string. -/
def strTrim (s : String) : String :=
  ⟨((s.data.dropWhile Char.isWhitespace).reverse.dropWhile
      Char.isWhitespace).reverse⟩

/-- Whether the handler returned early during validation. -/
def SubmitStep.isRejected {α : Type} : SubmitStep α → Bool
  | .rejected _ => true
  | .callApi _ => false

/-- Payload sent by `EventForm` (`POST /events` or `PUT /events/:id`). -/
structure EventPayload where
  name : String
  description : String
  date : String
  city : String
deriving Repr, DecidableEq

/-- Guard logic of `EventForm.handleSubmit` (`EventForm.tsx`): reject when
there is no truthy token (`if (!token)`); then reject when any of the four
fields is empty after trimming
(`if (!name.trim() || !description.trim() || !date.trim() || !city.trim())`);
otherwise call the API with the untrimmed field values. -/
def eventFormSubmit (token : Option String)
    (name description date city : String) : SubmitStep EventPayload :=
  if !jsTruthy token then
    .rejected "No hay token de autenticación."
  else if strTrim name == "" || strTrim description == "" ||
      strTrim date == "" || strTrim city == "" then
    .rejected "Todos los campos del evento son obligatorios."
  else
    .callApi ⟨name, description, date, city⟩

/-- Guard logic of `NewCommentForm.handleSubmit` (`NewCommentForm.tsx`):
reject when there is no truthy token, then when the comment body is empty
after trimming; otherwise call the API with the untrimmed body. -/
def newCommentSubmit (token : Option String) (body : String) :
    SubmitStep String :=
  if !jsTruthy token then
    .rejected "No hay token de autenticación."
  else if strTrim body == "" then
    .rejected "El comentario no puede estar vacío."
  else
    .callApi body

/-- Payload sent by `RegisterButton` (`POST /registrations`). -/
structure RegistrationPayload where
  eventId : String
  userId : String
deriving Repr, DecidableEq

/-- Guard logic of `RegisterButton.handleClick` (`RegisterButton.tsx`):
reject when `!token || !user` (no truthy token, or no user object); then
reject when already registered; otherwise call the API with the event and
user identifiers. -/
def registerClick (token : Option String) (user : Option User)
    (alreadyRegistered : Bool) (eventId : String) :
    SubmitStep RegistrationPayload :=
  match user with
  | none => .rejected "Debes iniciar sesión para inscribirte."
  | some u =>
    if !jsTruthy token then
      .rejected "Debes iniciar sesión para inscribirte."
    else if alreadyRegistered then
      .rejected "Ya estás inscrito en este evento."
    else
      .callApi ⟨eventId, u.userId⟩

/-! ### Session store theorems -/

/-- Helper: `hydrateFromStorage` either leaves the in-memory session
unchanged or sets both of its fields at once. -/
theorem hydrate_session_shape (st : AuthState) :
    (hydrateFromStorage st).session = st.session ∨
    ∃ t u, (hydrateFromStorage st).session = ⟨some t, some u⟩ := by
  rcases st with ⟨sess, ⟨stok, suser⟩⟩
  rcases stok with _ | t
  · exact Or.inl rfl
  rcases suser with _ | su
  · exact Or.inl rfl
  by_cases hc : (t != "" && su.isTruthy) = true
  · rcases hp : parseUser su with _ | u
    · exact Or.inl (by simp [hydrateFromStorage, hc, hp])
    · exact Or.inr ⟨t, u, by simp [hydrateFromStorage, hc, hp]⟩
  · exact Or.inl (by simp [hydrateFromStorage, hc])

/-- Helper: every store operation preserves the non-partial session
invariant. -/
theorem applyOp_consistent (st : AuthState) (op : StoreOp)
    (h : st.session.consistent) : (applyOp st op).session.consistent := by
  cases op with
  | doSetAuth t u => rfl
  | doLogout => rfl
  | doHydrate =>
    show (hydrateFromStorage st).session.consistent
    rcases hydrate_session_shape st with hs | ⟨t, u, hs⟩
    · rw [hs]; exact h
    · rw [hs]; rfl

/-- C8: `logout()` always yields the empty session regardless of prior
state, removes both persisted keys, and is idempotent: a second `logout`
produces the same session and persisted state as the first. -/
theorem logout_spec (st : AuthState) :
    (logout st).session = Session.empty ∧
    (logout st).storage = ⟨none, none⟩ ∧
    logout (logout st) = logout st :=
  ⟨rfl, rfl, rfl⟩

/-- C2: the session is never partial — for every sequence of store
operations (`setAuth`, `logout`, `hydrateFromStorage`) starting from the
empty in-memory session (over any persisted storage), after each operation
the session has either both token and user set or both unset. -/
theorem session_never_partial (storage : Storage) (ops : List StoreOp) :
    ((runOps ⟨Session.empty, storage⟩ ops).session).consistent := by
  have h : ∀ (ops : List StoreOp) (st : AuthState),
      st.session.consistent → (runOps st ops).session.consistent := by
    intro ops
    induction ops with
    | nil => intro st h; exact h
    | cons op rest ih =>
      intro st h
      exact ih (applyOp st op) (applyOp_consistent st op h)
  exact h ops _ rfl

/-- C3: round-trip — after `setAuth(t, u)` with a non-empty token, a
simulated reload (fresh empty in-memory session over the persisted
storage) followed by `hydrateFromStorage()` restores exactly the session
`⟨some t, some u⟩`. -/
theorem setAuth_reload_hydrate_roundtrip (st : AuthState) (t : String)
    (u : User) (ht : t ≠ "") :
    (hydrateFromStorage ⟨Session.empty, (setAuth st t u).storage⟩).session =
      ⟨some t, some u⟩ := by
  simp [setAuth, hydrateFromStorage, parseUser, StoredUser.isTruthy, ht]

/-- Witness for the round-trip theorem at concrete inputs. -/
theorem setAuth_reload_hydrate_roundtrip_witness :
    ("tok0" : String) ≠ "" ∧
    (hydrateFromStorage ⟨Session.empty,
        (setAuth ⟨Session.empty, ⟨none, none⟩⟩ "tok0"
          ⟨"U1", "Juan", "juan@example.com", "Bogotá", none⟩).storage⟩).session =
      ⟨some "tok0", some ⟨"U1", "Juan", "juan@example.com", "Bogotá", none⟩⟩ :=
  ⟨by decide,
   setAuth_reload_hydrate_roundtrip ⟨Session.empty, ⟨none, none⟩⟩ "tok0"
     ⟨"U1", "Juan", "juan@example.com", "Bogotá", none⟩ (by decide)⟩

/-- C1 counterexample: with a non-empty prior in-memory session and a
malformed persisted user next to a truthy token, `hydrateFromStorage`
does not empty the in-memory session (it only removes the persisted
keys). -/
theorem hydrate_malformed_cex :
    ¬ ((hydrateFromStorage
        ⟨⟨some "old", some ⟨"U0", "Ana", "ana@example.com", "Cali", none⟩⟩,
         ⟨some "tok", some (StoredUser.malformed "not-json")⟩⟩).session =
      Session.empty) := by decide

/-- C1 (amended): for every persisted state whose user payload is malformed
(truthy token key, truthy but unparseable user value),
`hydrateFromStorage()` removes both persisted keys and leaves the
in-memory session unchanged — in particular, a session that was empty
before the call (the state at page mount, where the store invokes
hydration) is still empty afterwards. -/
theorem hydrate_malformed_clears_keys (st : AuthState) (t s : String)
    (htok : st.storage.token = some t) (ht : t ≠ "")
    (huser : st.storage.user = some (StoredUser.malformed s)) (hs : s ≠ "") :
    (hydrateFromStorage st).storage = ⟨none, none⟩ ∧
    (hydrateFromStorage st).session = st.session := by
  unfold hydrateFromStorage
  rw [htok, huser]
  simp [StoredUser.isTruthy, parseUser, ht, hs]

/-- Witness for the amended C1 theorem at a concrete corrupted state. -/
theorem hydrate_malformed_clears_keys_witness :
    (hydrateFromStorage
      ⟨⟨some "old", some ⟨"U0", "Ana", "ana@example.com", "Cali", none⟩⟩,
       ⟨some "tok", some (StoredUser.malformed "not-json")⟩⟩).storage =
      ⟨none, none⟩ ∧
    (hydrateFromStorage
      ⟨⟨some "old", some ⟨"U0", "Ana", "ana@example.com", "Cali", none⟩⟩,
       ⟨some "tok", some (StoredUser.malformed "not-json")⟩⟩).session =
      ⟨some "old", some ⟨"U0", "Ana", "ana@example.com", "Cali", none⟩⟩ :=
  hydrate_malformed_clears_keys _ "tok" "not-json" rfl (by decide) rfl
    (by decide)

/-- C10: an empty-string persisted value is treated exactly like an absent
key — when the stored token is `""` or absent, or the stored user string is
`""` or absent, `hydrateFromStorage()` changes nothing: the in-memory
session is untouched and neither persisted key is removed. -/
theorem hydrate_blank_value_noop (st : AuthState)
    (h : st.storage.token = some "" ∨ st.storage.token = none ∨
         st.storage.user = some (StoredUser.malformed "") ∨
         st.storage.user = none) :
    hydrateFromStorage st = st := by
  unfold hydrateFromStorage
  rcases htok : st.storage.token with _ | t
  · rfl
  rcases hu : st.storage.user with _ | su
  · rfl
  rw [htok, hu] at h
  rcases h with h | h | h | h
  · obtain rfl : t = "" := by injection h
    simp
  · exact absurd h (by simp)
  · obtain rfl : su = StoredUser.malformed "" := by injection h
    simp [StoredUser.isTruthy]
  · exact absurd h (by simp)

/-- Witness for C10: an empty stored token blocks hydration even next to a
well-formed stored user, and removes nothing. -/
theorem hydrate_blank_value_noop_witness :
    hydrateFromStorage
      ⟨⟨some "tk", some ⟨"U1", "Nora", "n@example.com", "Cali", none⟩⟩,
       ⟨some "", some (StoredUser.encoded
          ⟨"U2", "Mia", "m@example.com", "Pasto", none⟩)⟩⟩ =
      ⟨⟨some "tk", some ⟨"U1", "Nora", "n@example.com", "Cali", none⟩⟩,
       ⟨some "", some (StoredUser.encoded
          ⟨"U2", "Mia", "m@example.com", "Pasto", none⟩)⟩⟩ :=
  hydrate_blank_value_noop _ (Or.inl rfl)

/-! ### Reconciler theorems -/

/-- Helper: `List.isPrefixOf` on character data agrees with literal string
decomposition — the receiver begins with `l₁` iff some remainder completes
it. -/
theorem isPrefixOf_chars_iff (l₁ l₂ : List Char) :
    l₁.isPrefixOf l₂ = true ↔ ∃ t, l₁ ++ t = l₂ := by
  induction l₁ generalizing l₂ with
  | nil => simp
  | cons a as ih =>
    cases l₂ with
    | nil => simp
    | cons b bs =>
      simp only [List.isPrefixOf_cons₂, Bool.and_eq_true, beq_iff_eq, ih,
        List.cons_append, List.cons.injEq]
      exact ⟨fun ⟨h1, t, h2⟩ => ⟨t, h1, h2⟩, fun ⟨t, h1, h2⟩ => ⟨h1, t, h2⟩⟩

/-- Helper: the embedded JS `startsWith` holds iff the receiver literally
decomposes as the search string followed by a remainder. -/
theorem strStartsWith_iff (s p : String) :
    strStartsWith s p = true ↔ ∃ r : String, s = p ++ r := by
  unfold strStartsWith
  rw [isPrefixOf_chars_iff]
  constructor
  · rintro ⟨t, ht⟩
    refine ⟨⟨t⟩, String.ext ?_⟩
    rw [String.data_append]
    exact ht.symm
  · rintro ⟨r, rfl⟩
    exact ⟨r.data, (String.data_append p r).symm⟩

/-- C4: `filteredEvents` keeps an event iff the city filter is empty or the
city matches it case-insensitively, and the date filter is empty or the
date string literally starts with it; the result preserves input order
(it is a sublist of the input), and empty filters keep every event. -/
theorem filteredEvents_spec (events : List Event) (c d : String) :
    (∀ e, e ∈ filteredEvents events c d ↔
      e ∈ events ∧
        (c = "" ∨ strToLower e.city = strToLower c) ∧
        (d = "" ∨ ∃ r, e.date = d ++ r)) ∧
    (filteredEvents events c d).Sublist events ∧
    filteredEvents events "" "" = events := by
  refine ⟨?_, ?_, ?_⟩
  · intro e
    simp only [filteredEvents, List.mem_filter, Bool.and_eq_true,
      Bool.or_eq_true, beq_iff_eq, strStartsWith_iff]
  · exact List.filter_sublist _
  · simp [filteredEvents, List.filter_eq_self]

/-- C5 counterexample: with an empty-string current user id, JS truthiness
short-circuits `isRegistered` to `false` even though a registration whose
user id is exactly that empty string is present — the stated iff fails. -/
theorem isRegistered_cex :
    ¬ (isRegistered [⟨"R1", "E1", "", "2025-01-01T00:00:00Z"⟩]
        (some "") = true ↔
      ∃ reg ∈ ([⟨"R1", "E1", "", "2025-01-01T00:00:00Z"⟩] :
          List Registration), reg.userId = "") := by decide

/-- C5 (amended): `isRegistered` returns `true` iff the current user id is
present with a non-empty value and at least one registration carries that
user id; it returns `false` (not an error) when the current user id is
absent — and likewise, by JS truthiness, when it is the empty string. -/
theorem isRegistered_spec (regs : List Registration)
    (currentUserId : Option String) :
    (isRegistered regs currentUserId = true ↔
      ∃ uid, currentUserId = some uid ∧ uid ≠ "" ∧
        ∃ reg ∈ regs, reg.userId = uid) ∧
    isRegistered regs none = false := by
  refine ⟨?_, rfl⟩
  rcases currentUserId with _ | uid
  · simp [isRegistered]
  · simp [isRegistered]

/-- C6 counterexample: an input list containing the same event twice keeps
both copies, so the qualifying event does not appear exactly once in the
result. -/
theorem joinedEvents_cex :
    ¬ ((joinedEvents
        [⟨"E2", "n", "d", "2025-12-05T18:00:00Z", "Cali", "U1", none⟩,
         ⟨"E2", "n", "d", "2025-12-05T18:00:00Z", "Cali", "U1", none⟩]
        [⟨"R1", "E2", "U9", "2025-12-01T00:00:00Z"⟩]).count
        ⟨"E2", "n", "d", "2025-12-05T18:00:00Z", "Cali", "U1", none⟩ = 1) := by
  decide

/-- Helper: counting after a filter — occurrences survive exactly when the
element satisfies the filter. -/
theorem count_filter_eq {α : Type} [DecidableEq α] (p : α → Bool)
    (l : List α) (a : α) :
    (l.filter p).count a = if p a = true then l.count a else 0 := by
  by_cases h : p a = true
  · rw [if_pos h]
    exact List.count_filter h
  · rw [if_neg h, List.count_eq_zero]
    intro hmem
    exact h (List.mem_filter.mp hmem).2

/-- C6 (amended): `joinedEvents` returns exactly the events whose
identifier appears in at least one registration, preserving the input
order (a sublist of the input); it introduces no duplication: every event
occurs in the result exactly as often as in the input when it qualifies
and not at all otherwise — so each qualifying event of a duplicate-free
input appears exactly once. -/
theorem joinedEvents_spec (events : List Event) (regs : List Registration) :
    (∀ e, e ∈ joinedEvents events regs ↔
      e ∈ events ∧ ∃ r ∈ regs, r.eventId = e.eventId) ∧
    (joinedEvents events regs).Sublist events ∧
    (∀ e, (joinedEvents events regs).count e =
      if ∃ r ∈ regs, r.eventId = e.eventId then events.count e else 0) := by
  refine ⟨?_, List.filter_sublist _, ?_⟩
  · intro e
    simp only [joinedEvents, List.mem_filter, List.any_eq_true, beq_iff_eq]
  · intro e
    rw [joinedEvents, count_filter_eq]
    simp only [List.any_eq_true, beq_iff_eq]

/-- C7: after a successful creation the new entity is spliced at the front
for events and posts and at the back for comments and registrations; the
remaining elements of the new sequence are the original collection in its
original order.  The handlers build a fresh list from the previous one
(the JS spread copies), so the original collection value is not mutated —
in the embedding the input list reappears intact inside the result. -/
theorem creation_splice_spec (e : Event) (es : List Event) (p : Post)
    (ps : List Post) (c : Comment) (cs : List Comment) (r : Registration)
    (rs : List Registration) :
    ((handleEventCreated e es).head? = some e ∧
      (handleEventCreated e es).tail = es) ∧
    ((handlePostCreated p ps).head? = some p ∧
      (handlePostCreated p ps).tail = ps) ∧
    ((handleCommentCreated c cs).take cs.length = cs ∧
      (handleCommentCreated c cs).drop cs.length = [c]) ∧
    ((handleRegistered r rs).take rs.length = rs ∧
      (handleRegistered r rs).drop rs.length = [r]) := by
  refine ⟨⟨rfl, rfl⟩, ⟨rfl, rfl⟩, ⟨?_, ?_⟩, ⟨?_, ?_⟩⟩
  · exact List.take_left cs [c]
  · exact List.drop_left cs [c]
  · exact List.take_left rs [r]
  · exact List.drop_left rs [r]

/-- C9: for each mutating submit handler, when the token is not truthy or a
required field is blank after trimming (for `RegisterButton`, when the
token is not truthy or no user is present), the guard rejects
synchronously: the handler returns before any API call is issued, so the
local collections and the session state are untouched. -/
theorem validation_guard_spec (token : Option String)
    (name description date city body : String) (user : Option User)
    (registered : Bool) (eventId : String) :
    ((jsTruthy token = false ∨ strTrim name = "" ∨ strTrim description = "" ∨
        strTrim date = "" ∨ strTrim city = "") →
      (eventFormSubmit token name description date city).isRejected = true) ∧
    ((jsTruthy token = false ∨ strTrim body = "") →
      (newCommentSubmit token body).isRejected = true) ∧
    ((jsTruthy token = false ∨ user = none) →
      (registerClick token user registered eventId).isRejected = true) := by
  refine ⟨?_, ?_, ?_⟩
  · intro h
    rcases h with h | h | h | h | h
    · simp [eventFormSubmit, h, SubmitStep.isRejected]
    all_goals
      simp only [eventFormSubmit, h]
      cases jsTruthy token <;> simp [SubmitStep.isRejected]
  · intro h
    rcases h with h | h
    · simp [newCommentSubmit, h, SubmitStep.isRejected]
    · simp only [newCommentSubmit, h]
      cases jsTruthy token <;> simp [SubmitStep.isRejected]
  · intro h
    rcases h with h | h
    · cases user with
      | none => rfl
      | some u => simp [registerClick, h, SubmitStep.isRejected]
    · subst h
      rfl

/-- Witness for C9: concrete blocked submissions with a missing token. -/
theorem validation_guard_spec_witness :
    (eventFormSubmit none "Feria" "desc" "2025-12-05" "Cali").isRejected =
      true ∧
    (newCommentSubmit none "hola").isRejected = true ∧
    (registerClick none (some ⟨"U1", "Nora", "n@example.com", "Cali", none⟩)
        false "E1").isRejected = true :=
  ⟨(validation_guard_spec none "Feria" "desc" "2025-12-05" "Cali" "hola"
      (some ⟨"U1", "Nora", "n@example.com", "Cali", none⟩) false "E1").1
      (Or.inl rfl),
   (validation_guard_spec none "Feria" "desc" "2025-12-05" "Cali" "hola"
      (some ⟨"U1", "Nora", "n@example.com", "Cali", none⟩) false "E1").2.1
      (Or.inl rfl),
   (validation_guard_spec none "Feria" "desc" "2025-12-05" "Cali" "hola"
      (some ⟨"U1", "Nora", "n@example.com", "Cali", none⟩) false "E1").2.2
      (Or.inl rfl)⟩
